import Mathlib

/-!
# go-htmx-learn: the task-list handlers and their storage accessor

A shallow embedding of `src/main.go`.  The database behind `db *sql.DB` is a
value of type `DB`: the rows of table `todos` in storage order, together with
the failures the SQL driver reports (`Faults`).  Every Go function that takes
the connection becomes a function that takes a `DB` and returns its result
together with the `DB` afterwards.  A handler returns an `Outcome`: the
response written to the gin context, or the process halted by `log.Fatal`.

Writes to standard output (`fmt.Println`, `fmt.Printf`) are left out: they do
not influence any result, response or the table.
-/

set_option linter.dupNamespace false

namespace GoHtmxLearn

/-! ## Errors and data -/

/-- A Go `error` value.  `ErrNoRows` is the sentinel `sql.ErrNoRows`, which
`getTaskByID` tests by identity; any other error is known by its text. -/
inductive GoError where
  | ErrNoRows
  | msg (text : String)
deriving DecidableEq, Repr

/-- The method `err.Error()`. -/
def GoError.Error : GoError → String
  | .ErrNoRows => "sql: no rows in result set"
  | .msg text => text

/-- The struct `Task` of the source. -/
structure Task where
  Id : Int
  Task : String
  Done : Bool
deriving DecidableEq, Repr

/-- Failures reported by the SQL driver, one field per driver call of the
source.  `none` everywhere is a driver that does not fail. -/
structure Faults where
  /-- Failure of `db.Prepare` -/
  prepare : Option GoError := none
  /-- Failure of `Exec`; the statement then changes nothing -/
  exec : Option GoError := none
  /-- Failure of `result.RowsAffected` (the statement has run) -/
  rowsAffected : Option GoError := none
  /-- Failure of `db.Query` or `db.QueryRow` -/
  query : Option GoError := none
  /-- Failure of iteration: `rows.Next` gives up after that many rows and `rows.Err` reports the error -/
  next : Option (Nat × GoError) := none
  /-- Failure of `Scan` on this row -/
  scan : Task → Option GoError := fun _ => none
  /-- Failure of `rows.Close` at the end of `Row.Scan` -/
  close : Option GoError := none

/-- The database behind the handle `db`. -/
structure DB where
  /-- The rows of table `todos`, in storage order -/
  todos : List Task
  faults : Faults := {}

/-- A driver that reports no failure. -/
def noFaults : Faults := {}

/-! ## Library functions used by the source -/

/-- Go's `strings.ToLower`, on the characters of the string.  Letters `A`-`Z`
go to `a`-`z`; Go also lower-cases letters outside ASCII, none of which
becomes one of the letters of `yes`, `on`, `no`, `off`. -/
def ToLower (s : String) : String := ⟨s.data.map Char.toLower⟩

/-- The value of a decimal digit. -/
def digitVal (c : Char) : Option Nat :=
  if 48 ≤ c.toNat ∧ c.toNat ≤ 57 then some (c.toNat - 48) else none

/-- The digit loop of `strconv.Atoi`. -/
def parseDigits : List Char → Nat → Option Nat
  | [], acc => some acc
  | c :: cs, acc =>
    match digitVal c with
    | none => none
    | some d => parseDigits cs (acc * 10 + d)

/-- Go's `strconv.Atoi` for a 64-bit `int`: an optional sign, then one or
more decimal digits, the value within the range of `int`.  `none` is a
non-nil error. -/
def Atoi (s : String) : Option Int :=
  let signed : Bool × List Char :=
    match s.data with
    | '-' :: r => (true, r)
    | '+' :: r => (false, r)
    | r => (false, r)
  match signed.2 with
  | [] => none
  | ds =>
    match parseDigits ds 0 with
    | none => none
    | some n =>
      let v : Int := if signed.1 then -(n : Int) else (n : Int)
      if -(9223372036854775808 : Int) ≤ v ∧ v < 9223372036854775808 then some v
      else none

/-- The verb `%d` of `fmt` applied to an `int`. -/
def fmtD (i : Int) : String := toString i

/-! ## The gin context -/

/-- What a handler reads from `*gin.Context`: the path parameters and the
fields of the posted form. -/
structure Context where
  params : List (String × String)
  form : List (String × String)

/-- The method `c.Param(key)`: the empty string when the parameter is absent. -/
def Context.Param (c : Context) (key : String) : String :=
  (c.params.lookup key).getD ""

/-- The method `c.PostForm(key)`: the first value of the field, the empty
string when the field is absent. -/
def Context.PostForm (c : Context) (key : String) : String :=
  (c.form.lookup key).getD ""

/-- The data bound to a template. -/
inductive TemplateData where
  | nil
  | tasks (ts : List Task)
  | task (t : Task)
deriving DecidableEq, Repr

/-- What a handler writes: `c.HTML(status, name, data)` or
`c.String(status, text)`. -/
inductive Response where
  | HTML (status : Nat) (name : String) (data : TemplateData)
  | String (status : Nat) (text : String)
deriving DecidableEq, Repr

/-- How a handler ends: it has written a response, or `log.Fatal` has
stopped the process. -/
inductive Outcome where
  | responded (r : Response)
  | halted (err : GoError)
deriving DecidableEq, Repr

def StatusOK : Nat := 200
def StatusBadRequest : Nat := 400
def StatusInternalServerError : Nat := 500

/-! ## The SQL driver on table `todos` -/

/-- An open result set: the rows `Next` will deliver and what `Err`
reports once `Next` has returned false. -/
structure Rows where
  pending : List Task
  err : Option GoError

/-- The call `db.Query` for `SELECT id, task, done FROM todos` restricted to
the rows `sel` keeps (`WHERE`). -/
def DB.Query (db : DB) (sel : Task → Bool) : Except GoError Rows :=
  match db.faults.query with
  | some e => .error e
  | none =>
    match db.faults.next with
    | some (k, e) => .ok ⟨(db.todos.filter sel).take k, some e⟩
    | none => .ok ⟨db.todos.filter sel, none⟩

/-- The call `rows.Scan(&todo.Id, &todo.Task, &todo.Done)` on a delivered row. -/
def DB.Scan (db : DB) (r : Task) : Except GoError Task :=
  match db.faults.scan r with
  | some e => .error e
  | none => .ok r

/-- The call `db.Prepare`. -/
def DB.Prepare (db : DB) : Option GoError := db.faults.prepare

/-- Modelled from the spec: the schema of table `todos` is not in the
sources; the spec gives `id` as an integer primary key assigned by the
storage layer.  SQLite assigns 1 in an empty table and otherwise one more
than the largest id in use. -/
def freshId (rows : List Task) : Int :=
  match rows.map (fun r => r.Id) with
  | [] => 1
  | x :: xs => xs.foldl max x + 1

/-- Executing `INSERT INTO todos (task, done) VALUES (?, ?)` with `task`
and `0`: the error, or the number of rows affected, and the database after. -/
def DB.ExecInsert (db : DB) (task : String) : Except GoError Nat × DB :=
  match db.faults.exec with
  | some e => (.error e, db)
  | none =>
    (.ok 1, { db with todos := db.todos ++ [⟨freshId db.todos, task, false⟩] })

/-- Executing `UPDATE todos SET task = ?, done = ? WHERE id = ?`. -/
def DB.ExecUpdate (db : DB) (task : String) (done : Bool) (id : Int) :
    Except GoError Nat × DB :=
  match db.faults.exec with
  | some e => (.error e, db)
  | none =>
    (.ok (db.todos.filter (fun r => r.Id = id)).length,
     { db with
       todos := db.todos.map
         (fun r => if r.Id = id then { r with Task := task, Done := done } else r) })

/-- Executing `DELETE FROM todos WHERE id = ?`. -/
def DB.ExecDelete (db : DB) (id : Int) : Except GoError Nat × DB :=
  match db.faults.exec with
  | some e => (.error e, db)
  | none =>
    (.ok (db.todos.filter (fun r => r.Id = id)).length,
     { db with todos := db.todos.filter (fun r => ¬ r.Id = id) })

/-- The call `result.RowsAffected()`. -/
def DB.RowsAffected (db : DB) (n : Nat) : Except GoError Nat :=
  match db.faults.rowsAffected with
  | some e => .error e
  | none => .ok n

/-- The method `(*sql.Row).Scan` on the row of `db.QueryRow`: the deferred
query error; `sql.ErrNoRows` when `Next` delivers nothing and reports no
error; the error of scanning; the error of closing. -/
def DB.RowScan (db : DB) (row : Except GoError Rows) : Except GoError Task :=
  match row with
  | .error e => .error e
  | .ok rows =>
    match rows.pending with
    | [] =>
      match rows.err with
      | some e => .error e
      | none => .error GoError.ErrNoRows
    | r :: _ =>
      match db.Scan r with
      | .error e => .error e
      | .ok t =>
        match db.faults.close with
        | some e => .error e
        | none => .ok t

/-! ## The storage accessor -/

/-- The loop `for rows.Next() { ... rows.Scan ... append }` of `getTasks`:
the tasks appended, or the `rowErr` of the first scan that fails. -/
def scanLoop (db : DB) : List Task → List Task → Except GoError (List Task)
  | [], tasks => .ok tasks
  | r :: rest, tasks =>
    match db.Scan r with
    | .error rowErr => .error rowErr
    | .ok todo => scanLoop db rest (tasks ++ [todo])

/-- The function `getTasks`.  The first component is the slice (`[]` for
`nil`), the second the error (`none` for `nil`). -/
def getTasks (db : DB) : List Task × Option GoError :=
  match db.Query (fun _ => true) with
  | .error err => ([], some err)
  | .ok rows =>
    -- here `err` is nil
    let err : Option GoError := none
    match scanLoop db rows.pending [] with
    | .error _rowErr => ([], err)
    | .ok tasks =>
      match rows.err with
      | some err => ([], some err)
      | none => (tasks, none)

/-- The function `getTaskByID`. -/
def getTaskByID (db : DB) (id : Int) : Except GoError Task :=
  let row := db.Query (fun r => r.Id = id)
  match db.RowScan row with
  | .error err =>
    if err = GoError.ErrNoRows then
      .error (.msg ("no task was found with task " ++ fmtD id))
    else .error err
  | .ok task => .ok task

/-- The function `updateTaskById`: the error returned and the database after. -/
def updateTaskById (db : DB) (task : Task) : Option GoError × DB :=
  match db.ExecUpdate task.Task task.Done task.Id with
  | (.error err, db1) => (some err, db1)
  | (.ok n, db1) =>
    match db1.RowsAffected n with
    | .error err => (some err, db1)
    | .ok _rowsAffected => (none, db1)

/-- The function `deleTaskWithID`: the error returned and the database after. -/
def deleTaskWithID (db : DB) (id : Int) : Option GoError × DB :=
  match db.Prepare with
  | some err => (some err, db)
  | none =>
    match db.ExecDelete id with
    | (.error err, db1) => (some err, db1)
    | (.ok n, db1) =>
      match db1.RowsAffected n with
      | .error err => (some err, db1)
      | .ok rowsAffected =>
        if rowsAffected = 0 then
          (some (.msg ("no task found with id " ++ fmtD id)), db1)
        else (none, db1)

/-! ## The handlers -/

/-- The handler `Homepage`. -/
def Homepage (db : DB) : Outcome × DB :=
  (.responded (.HTML StatusOK "home.html" .nil), db)

/-- The handler `getTaskForm`. -/
def getTaskForm (db : DB) : Outcome × DB :=
  (.responded (.HTML StatusOK "addTaskForm" .nil), db)

/-- The handler `fetchTasks`. -/
def fetchTasks (db : DB) : Outcome × DB :=
  match getTasks db with
  | (_, some err) => (.halted err, db)   -- log.Fatal(err); what follows is not reached
  | (todos, none) => (.responded (.HTML StatusOK "todoList" (.tasks todos)), db)

/-- The handler `addTask`. -/
def addTask (c : Context) (db : DB) : Outcome × DB :=
  let task := c.PostForm "task"
  match db.Prepare with
  | some err => (.halted err, db)
  | none =>
    match db.ExecInsert task with
    | (.error executeErr, db1) => (.halted executeErr, db1)
    | (.ok _, db1) =>
      let todos := (getTasks db1).1
      (.responded (.HTML StatusOK "todoList" (.tasks todos)), db1)

/-- The handler `getTaskUpdateForm`. -/
def getTaskUpdateForm (c : Context) (db : DB) : Outcome × DB :=
  match Atoi (c.Param "id") with
  | none => (.responded (.String StatusBadRequest "Invalid task ID"), db)
  | some taskId =>
    match getTaskByID db taskId with
    | .error err => (.responded (.String StatusInternalServerError err.Error), db)
    | .ok task => (.responded (.HTML StatusOK "updateTaskForm" (.task task)), db)

/-- The `switch strings.ToLower(c.PostForm("done"))` of `updateTask`: the
value of `taskStatus` for the submitted field. -/
def taskStatus (done : String) : Bool :=
  let v := ToLower done
  if v = "yes" ∨ v = "on" then true
  else if v = "no" ∨ v = "off" then false
  else false

/-- The handler `updateTask`. -/
def updateTask (c : Context) (db : DB) : Outcome × DB :=
  match Atoi (c.Param "id") with
  | none => (.responded (.String StatusBadRequest "Invalid task ID"), db)
  | some taskId =>
    let taskItem := c.PostForm "task"
    let task : Task := ⟨taskId, taskItem, taskStatus (c.PostForm "done")⟩
    match updateTaskById db task with
    | (some updateErr, db1) => (.halted updateErr, db1)
    | (none, db1) =>
      let todos := (getTasks db1).1
      (.responded (.HTML StatusOK "todoList" (.tasks todos)), db1)

/-- The handler `deleteTask`. -/
def deleteTask (c : Context) (db : DB) : Outcome × DB :=
  match Atoi (c.Param "id") with
  | none => (.responded (.String StatusBadRequest "Invalid task ID"), db)
  | some taskId =>
    match deleTaskWithID db taskId with
    | (some err, db1) => (.responded (.String StatusInternalServerError err.Error), db1)
    | (none, db1) =>
      let todos := (getTasks db1).1
      (.responded (.HTML StatusOK "todoList" (.tasks todos)), db1)

/-! ## Lemmas on the storage accessor -/

theorem scanLoop_ok (db : DB) (l acc : List Task)
    (h : ∀ r ∈ l, db.faults.scan r = none) : scanLoop db l acc = .ok (acc ++ l) := by
  induction l generalizing acc with
  | nil => simp [scanLoop]
  | cons r rest ih =>
    have hr : db.faults.scan r = none := h r (List.mem_cons_self _ _)
    have hrest : ∀ x ∈ rest, db.faults.scan x = none :=
      fun x hx => h x (List.mem_cons_of_mem _ hx)
    simp [scanLoop, DB.Scan, hr, ih _ hrest]

theorem scanLoop_error (db : DB) (l acc : List Task)
    (h : ∃ r ∈ l, db.faults.scan r ≠ none) : ∃ e, scanLoop db l acc = .error e := by
  induction l generalizing acc with
  | nil => simp at h
  | cons r rest ih =>
    cases hr : db.faults.scan r with
    | some e => exact ⟨e, by simp [scanLoop, DB.Scan, hr]⟩
    | none =>
      have hrest : ∃ x ∈ rest, db.faults.scan x ≠ none := by
        obtain ⟨x, hx, hne⟩ := h
        rcases List.mem_cons.mp hx with rfl | hx
        · exact absurd hr hne
        · exact ⟨x, hx, hne⟩
      obtain ⟨e, he⟩ := ih (acc ++ [r]) hrest
      exact ⟨e, by simp [scanLoop, DB.Scan, hr, he]⟩

theorem scanLoop_result (db : DB) (l acc ts : List Task)
    (h : scanLoop db l acc = .ok ts) : ts = acc ++ l := by
  induction l generalizing acc with
  | nil => simp [scanLoop] at h; simp [h]
  | cons r rest ih =>
    cases hr : db.faults.scan r with
    | some e => simp [scanLoop, DB.Scan, hr] at h
    | none =>
      simp [scanLoop, DB.Scan, hr] at h
      simpa using ih _ h

/-- With a driver that does not fail on reading, `getTasks` returns the rows
of the table in storage order. -/
theorem getTasks_ok (db : DB) (hq : db.faults.query = none) (hn : db.faults.next = none)
    (hs : ∀ r ∈ db.todos, db.faults.scan r = none) : getTasks db = (db.todos, none) := by
  simp [getTasks, DB.Query, hq, hn, scanLoop_ok db db.todos [] hs]

/-- When the query fails, the iteration ends with an error, or a row of the
table does not scan, the slice `getTasks` returns is nil. -/
theorem getTasks_nil_of_read_failure (db : DB)
    (h : db.faults.query ≠ none ∨ db.faults.next ≠ none ∨
      ∃ r ∈ db.todos, db.faults.scan r ≠ none) : (getTasks db).1 = [] := by
  unfold getTasks DB.Query
  cases hq : db.faults.query with
  | some e => rfl
  | none =>
    cases hn : db.faults.next with
    | some ke =>
      obtain ⟨k, e⟩ := ke
      simp only
      cases scanLoop db (List.take k (List.filter (fun _ => true) db.todos)) [] <;> rfl
    | none =>
      have hs : ∃ r ∈ db.todos, db.faults.scan r ≠ none := by
        rcases h with h | h | h
        · exact absurd hq h
        · exact absurd hn h
        · exact h
      have hf : List.filter (fun _ => true) db.todos = db.todos := by simp
      obtain ⟨e, he⟩ := scanLoop_error db db.todos [] hs
      simp only [hf, he]

/-- Whatever the driver does, `getTasks` returns only rows of the table. -/
theorem getTasks_mem (db : DB) (t : Task) (h : t ∈ (getTasks db).1) : t ∈ db.todos := by
  unfold getTasks at h
  cases hq : db.Query (fun _ => true) with
  | error e => simp [hq] at h
  | ok rows =>
    simp only [hq] at h
    have hp : ∀ x ∈ rows.pending, x ∈ db.todos := by
      intro x hx
      unfold DB.Query at hq
      cases hfq : db.faults.query with
      | some e => simp [hfq] at hq
      | none =>
        cases hfn : db.faults.next with
        | none =>
          simp [hfq, hfn] at hq
          subst hq
          simpa using hx
        | some ke =>
          obtain ⟨k, e⟩ := ke
          simp [hfq, hfn] at hq
          subst hq
          simpa using List.mem_of_mem_take hx
    cases hl : scanLoop db rows.pending [] with
    | error e => simp [hl] at h
    | ok ts =>
      have hts := scanLoop_result db _ _ _ hl
      simp only [hl] at h
      cases he : rows.err with
      | some e => simp [he] at h
      | none =>
        simp [he] at h
        subst hts
        exact hp t (by simpa using h)

/-- The table after `updateTask`, for every request. -/
theorem updateTask_db (c : Context) (db : DB) :
    (updateTask c db).2 =
      match Atoi (c.Param "id") with
      | none => db
      | some taskId =>
        (updateTaskById db
          ⟨taskId, c.PostForm "task", taskStatus (c.PostForm "done")⟩).2 := by
  unfold updateTask
  cases Atoi (c.Param "id") with
  | none => rfl
  | some taskId =>
    simp only
    generalize updateTaskById db _ = r
    obtain ⟨e, db1⟩ := r
    cases e <;> rfl

/-! ## Lemmas on the statements `UPDATE` and `DELETE` -/

theorem filter_id_eq_nil (l : List Task) (id : Int) (h : id ∉ l.map (fun r => r.Id)) :
    l.filter (fun r => r.Id = id) = [] := by
  induction l with
  | nil => rfl
  | cons r rest ih =>
    simp only [List.map_cons, List.mem_cons, not_or] at h
    have hne : ¬ r.Id = id := fun e => h.1 e.symm
    simp [List.filter_cons, hne, ih h.2]

theorem filter_id_ne_self (l : List Task) (id : Int) (h : id ∉ l.map (fun r => r.Id)) :
    l.filter (fun r => ¬ r.Id = id) = l := by
  induction l with
  | nil => rfl
  | cons r rest ih =>
    simp only [List.map_cons, List.mem_cons, not_or] at h
    have hne : ¬ r.Id = id := fun e => h.1 e.symm
    have ih2 := ih h.2
    rw [List.filter_cons]
    simp only [hne, not_false_eq_true, decide_True, if_true]
    rw [ih2]

theorem filter_id_eq_length_pos (l : List Task) (id : Int) (h : id ∈ l.map (fun r => r.Id)) :
    (l.filter (fun r => r.Id = id)).length ≠ 0 := by
  obtain ⟨r, hr, hid⟩ := List.mem_map.mp h
  have hm : r ∈ l.filter (fun r => r.Id = id) := by
    simp [List.mem_filter, hr, hid]
  intro h0
  rw [List.length_eq_zero] at h0
  rw [h0] at hm
  simp at hm

theorem filter_id_eq_length_one (l : List Task) (id : Int)
    (hn : (l.map (fun r => r.Id)).Nodup) (h : id ∈ l.map (fun r => r.Id)) :
    (l.filter (fun r => r.Id = id)).length = 1 := by
  induction l with
  | nil => simp at h
  | cons r rest ih =>
    simp only [List.map_cons, List.nodup_cons] at hn
    by_cases hr : r.Id = id
    · have hnot : id ∉ rest.map (fun r => r.Id) := hr ▸ hn.1
      simp [List.filter_cons, hr, filter_id_eq_nil rest id hnot]
    · have hin : id ∈ rest.map (fun r => r.Id) := by
        simp only [List.map_cons, List.mem_cons] at h
        rcases h with h | h
        · exact absurd h.symm hr
        · exact h
      simp [List.filter_cons, hr, ih hn.2 hin]

theorem length_filter_id_split (l : List Task) (id : Int) :
    (l.filter (fun r => ¬ r.Id = id)).length + (l.filter (fun r => r.Id = id)).length
      = l.length := by
  induction l with
  | nil => rfl
  | cons r rest ih =>
    by_cases hr : r.Id = id
    · simp [List.filter_cons, hr] at ih ⊢; omega
    · simp [List.filter_cons, hr] at ih ⊢; omega

theorem map_update_of_not_mem (l : List Task) (task : Task)
    (h : task.Id ∉ l.map (fun r => r.Id)) :
    l.map (fun r => if r.Id = task.Id then
        ({ r with Task := task.Task, Done := task.Done } : Task) else r) = l := by
  induction l with
  | nil => rfl
  | cons r rest ih =>
    simp only [List.map_cons, List.mem_cons, not_or] at h
    have hne : ¬ r.Id = task.Id := fun e => h.1 e.symm
    simp [hne, ih h.2]

theorem map_update_ids (l : List Task) (task : Task) :
    (l.map (fun r => if r.Id = task.Id then
        ({ r with Task := task.Task, Done := task.Done } : Task) else r)).map (fun r => r.Id)
      = l.map (fun r => r.Id) := by
  induction l with
  | nil => rfl
  | cons r rest ih =>
    by_cases hr : r.Id = task.Id
    · simp [hr, ih]
    · simp [hr, ih]

theorem map_update_filter_ne (l : List Task) (task : Task) :
    (l.map (fun r => if r.Id = task.Id then
        ({ r with Task := task.Task, Done := task.Done } : Task) else r)).filter
        (fun r => ¬ r.Id = task.Id)
      = l.filter (fun r => ¬ r.Id = task.Id) := by
  induction l with
  | nil => rfl
  | cons r rest ih =>
    by_cases hr : r.Id = task.Id
    · simpa [List.filter_cons, hr] using ih
    · simpa [List.filter_cons, hr] using ih

theorem map_update_filter_eq (l : List Task) (task : Task)
    (hn : (l.map (fun r => r.Id)).Nodup) (h : task.Id ∈ l.map (fun r => r.Id)) :
    (l.map (fun r => if r.Id = task.Id then
        ({ r with Task := task.Task, Done := task.Done } : Task) else r)).filter
        (fun r => r.Id = task.Id)
      = [task] := by
  induction l with
  | nil => simp at h
  | cons r rest ih =>
    simp only [List.map_cons, List.nodup_cons] at hn
    by_cases hr : r.Id = task.Id
    · have hnot : task.Id ∉ rest.map (fun r => r.Id) := hr ▸ hn.1
      have htask : ({ r with Task := task.Task, Done := task.Done } : Task) = task := by
        cases task; cases r; simp_all
      simp only [List.map_cons, hr, if_true, htask]
      rw [map_update_of_not_mem rest task hnot]
      simp [List.filter_cons, filter_id_eq_nil rest task.Id hnot]
    · have hin : task.Id ∈ rest.map (fun r => r.Id) := by
        simp only [List.map_cons, List.mem_cons] at h
        rcases h with h | h
        · exact absurd h.symm hr
        · exact h
      simp [List.filter_cons, hr, ih hn.2 hin]

/-! ## The claims -/

/-- C1: for every submitted value `s` of the field `done` (the empty string
for an absent field), `taskStatus` is true exactly when the lower-cased `s`
is `yes` or `on`, and false for every other value, among them `no`, `off`,
`true`, `1` and the empty string; the decode is a total function with a
boolean value, so it raises no error; and the task that `updateTask` hands
to `updateTaskById` carries that value. -/
theorem taskStatus_true_iff_yes_or_on (s : String) :
    (taskStatus s = true ↔ (ToLower s = "yes" ∨ ToLower s = "on")) ∧
    (taskStatus s = false ↔ ¬ (ToLower s = "yes" ∨ ToLower s = "on")) ∧
    (taskStatus "yes" = true ∧ taskStatus "on" = true ∧ taskStatus "YES" = true ∧
      taskStatus "On" = true) ∧
    (taskStatus "no" = false ∧ taskStatus "off" = false ∧ taskStatus "true" = false ∧
      taskStatus "1" = false ∧ taskStatus "" = false ∧ taskStatus "y e s" = false) ∧
    (∀ (c : Context) (db : DB),
      (updateTask c db).2 =
        match Atoi (c.Param "id") with
        | none => db
        | some taskId =>
          (updateTaskById db
            ⟨taskId, c.PostForm "task", taskStatus (c.PostForm "done")⟩).2) := by
  refine ⟨?_, ?_, by decide, by decide, updateTask_db⟩
  · unfold taskStatus
    by_cases h : ToLower s = "yes" ∨ ToLower s = "on"
    · simp [h]
    · simp [h]
  · unfold taskStatus
    by_cases h : ToLower s = "yes" ∨ ToLower s = "on"
    · simp [h]
    · simp [h]

/-- C2: when the path parameter `id` does not convert to an integer, each of
`getTaskUpdateForm`, `updateTask` and `deleteTask` writes status 400 with the
text `Invalid task ID`, leaves the database as it was, and does not halt. -/
theorem invalid_id_bad_request (c : Context) (db : DB)
    (h : Atoi (c.Param "id") = none) :
    getTaskUpdateForm c db = (.responded (.String 400 "Invalid task ID"), db) ∧
    updateTask c db = (.responded (.String 400 "Invalid task ID"), db) ∧
    deleteTask c db = (.responded (.String 400 "Invalid task ID"), db) := by
  simp [getTaskUpdateForm, updateTask, deleteTask, h, StatusBadRequest]

/-- Witness of C2 at the parameter `abc`. -/
theorem invalid_id_bad_request_witness :
    Atoi (Context.Param ⟨[("id", "abc")], [("task", "x")]⟩ "id") = none ∧
    (getTaskUpdateForm ⟨[("id", "abc")], [("task", "x")]⟩ ⟨[⟨1, "a", false⟩], {}⟩
        = (.responded (.String 400 "Invalid task ID"), ⟨[⟨1, "a", false⟩], {}⟩) ∧
      updateTask ⟨[("id", "abc")], [("task", "x")]⟩ ⟨[⟨1, "a", false⟩], {}⟩
        = (.responded (.String 400 "Invalid task ID"), ⟨[⟨1, "a", false⟩], {}⟩) ∧
      deleteTask ⟨[("id", "abc")], [("task", "x")]⟩ ⟨[⟨1, "a", false⟩], {}⟩
        = (.responded (.String 400 "Invalid task ID"), ⟨[⟨1, "a", false⟩], {}⟩)) :=
  ⟨by decide, invalid_id_bad_request _ _ (by decide)⟩

/-- C3, as the code has it: when the insert succeeds (`Prepare` and `Exec`
report no error), `addTask` leaves the table with exactly one more row, the
new row last, with the submitted `task` text and `done` false whatever else
the form holds, and every earlier row as it was; it answers 200 with the
template `todoList` bound to the slice the `getTasks` that follows returns,
its error dropped.  When in that `getTasks` the query succeeds, the iteration
ends without error and every row of the new table scans, the bound list is
the new table, so it contains the new task; when the query fails, the
iteration ends with an error, or a row of the new table does not scan, the
bound list is empty. -/
theorem addTask_inserts_one_row (c : Context) (db : DB)
    (hp : db.faults.prepare = none) (he : db.faults.exec = none) :
    (addTask c db).2.todos
      = db.todos ++ [⟨freshId db.todos, c.PostForm "task", false⟩] ∧
    (addTask c db).2.todos.length = db.todos.length + 1 ∧
    (addTask c db).2.todos.take db.todos.length = db.todos ∧
    (addTask c db).1
      = .responded (.HTML 200 "todoList" (.tasks (getTasks (addTask c db).2).1)) ∧
    (db.faults.query = none → db.faults.next = none →
      (∀ r ∈ db.todos ++ [⟨freshId db.todos, c.PostForm "task", false⟩],
        db.faults.scan r = none) →
      (getTasks (addTask c db).2).1 = (addTask c db).2.todos ∧
      (⟨freshId db.todos, c.PostForm "task", false⟩ : Task)
        ∈ (getTasks (addTask c db).2).1 ∧
      (addTask c db).1
        = .responded (.HTML 200 "todoList"
            (.tasks (db.todos ++ [⟨freshId db.todos, c.PostForm "task", false⟩])))) ∧
    ((db.faults.query ≠ none ∨ db.faults.next ≠ none ∨
        ∃ r ∈ db.todos ++ [⟨freshId db.todos, c.PostForm "task", false⟩],
          db.faults.scan r ≠ none) →
      (getTasks (addTask c db).2).1 = [] ∧
      (addTask c db).1 = .responded (.HTML 200 "todoList" (.tasks []))) := by
  have h : addTask c db =
      (.responded (.HTML 200 "todoList" (.tasks (getTasks
          { db with todos := db.todos ++ [⟨freshId db.todos, c.PostForm "task", false⟩] }).1)),
        { db with todos := db.todos ++ [⟨freshId db.todos, c.PostForm "task", false⟩] }) := by
    simp [addTask, DB.Prepare, DB.ExecInsert, hp, he, StatusOK]
  rw [h]
  refine ⟨rfl, by simp, by simp, rfl, ?_, ?_⟩
  · intro hq hn hs
    have hg := getTasks_ok
      { db with todos := db.todos ++ [⟨freshId db.todos, c.PostForm "task", false⟩] }
      hq hn hs
    rw [hg]
    simp
  · intro hf
    have hg := getTasks_nil_of_read_failure
      { db with todos := db.todos ++ [⟨freshId db.todos, c.PostForm "task", false⟩] } hf
    rw [hg]
    exact ⟨rfl, rfl⟩

/-- Witness of C3 as amended: a table of two rows and a form with `task` and
`done`, first with a driver that does not fail, then with a first row that
does not scan. -/
theorem addTask_inserts_one_row_witness :
    ((⟨[⟨1, "a", false⟩, ⟨4, "b", true⟩], {}⟩ : DB).faults.prepare = none ∧
      (⟨[⟨1, "a", false⟩, ⟨4, "b", true⟩], {}⟩ : DB).faults.exec = none) ∧
    (addTask ⟨[], [("task", "buy milk"), ("done", "on")]⟩
        ⟨[⟨1, "a", false⟩, ⟨4, "b", true⟩], {}⟩).2.todos
      = [⟨1, "a", false⟩, ⟨4, "b", true⟩, ⟨5, "buy milk", false⟩] ∧
    (addTask ⟨[], [("task", "buy milk"), ("done", "on")]⟩
        ⟨[⟨1, "a", false⟩, ⟨4, "b", true⟩], {}⟩).1
      = .responded (.HTML 200 "todoList"
          (.tasks [⟨1, "a", false⟩, ⟨4, "b", true⟩, ⟨5, "buy milk", false⟩])) ∧
    (⟨5, "buy milk", false⟩ : Task)
      ∈ (getTasks (addTask ⟨[], [("task", "buy milk"), ("done", "on")]⟩
          ⟨[⟨1, "a", false⟩, ⟨4, "b", true⟩], {}⟩).2).1 ∧
    (addTask ⟨[], [("task", "buy milk"), ("done", "on")]⟩
        ⟨[⟨1, "a", false⟩, ⟨4, "b", true⟩],
          { scan := fun r => if r.Id = 1 then some (.msg "converting NULL to bool")
              else none }⟩).2.todos
      = [⟨1, "a", false⟩, ⟨4, "b", true⟩, ⟨5, "buy milk", false⟩] ∧
    (addTask ⟨[], [("task", "buy milk"), ("done", "on")]⟩
        ⟨[⟨1, "a", false⟩, ⟨4, "b", true⟩],
          { scan := fun r => if r.Id = 1 then some (.msg "converting NULL to bool")
              else none }⟩).1
      = .responded (.HTML 200 "todoList" (.tasks [])) :=
  ⟨⟨rfl, rfl⟩,
   (addTask_inserts_one_row ⟨[], [("task", "buy milk"), ("done", "on")]⟩
      ⟨[⟨1, "a", false⟩, ⟨4, "b", true⟩], {}⟩ rfl rfl).1,
   by decide,
   ((addTask_inserts_one_row ⟨[], [("task", "buy milk"), ("done", "on")]⟩
      ⟨[⟨1, "a", false⟩, ⟨4, "b", true⟩], {}⟩ rfl rfl).2.2.2.2.1
      rfl rfl (fun _ _ => rfl)).2.1,
   (addTask_inserts_one_row ⟨[], [("task", "buy milk"), ("done", "on")]⟩
      ⟨[⟨1, "a", false⟩, ⟨4, "b", true⟩],
        { scan := fun r => if r.Id = 1 then some (.msg "converting NULL to bool")
            else none }⟩ rfl rfl).1,
   ((addTask_inserts_one_row ⟨[], [("task", "buy milk"), ("done", "on")]⟩
      ⟨[⟨1, "a", false⟩, ⟨4, "b", true⟩],
        { scan := fun r => if r.Id = 1 then some (.msg "converting NULL to bool")
            else none }⟩ rfl rfl).2.2.2.2.2
      (Or.inr (Or.inr ⟨⟨1, "a", false⟩, by simp, by simp⟩))).2⟩

/-- C3 as stated fails: the insert succeeds and the row is in the table, but
the query of the `getTasks` that follows fails, its error is dropped, and the
list bound to `todoList` is empty. -/
theorem addTask_fragment_counterexample :
    (DB.ExecInsert ⟨[], { query := some (.msg "database is locked") }⟩ "buy milk").1
      = .ok 1 ∧
    (addTask ⟨[], [("task", "buy milk")]⟩
        ⟨[], { query := some (.msg "database is locked") }⟩).2.todos
      = [⟨1, "buy milk", false⟩] ∧
    (addTask ⟨[], [("task", "buy milk")]⟩
        ⟨[], { query := some (.msg "database is locked") }⟩).1
      = .responded (.HTML 200 "todoList" (.tasks [])) ∧
    (⟨1, "buy milk", false⟩ : Task) ∉ ([] : List Task) := by
  refine ⟨rfl, by decide, by decide, by simp⟩

/-- C4: in a table with unique ids, when the `UPDATE` executes and the id of
the submitted task is in the table, after `updateTaskById` exactly one row
has that id and it is the submitted task (its description and `done`, the
same id); the ids of the table are as before, row by row; every row is the
submitted task if it had that id and is unchanged otherwise; and the table
after `updateTask` is the table after `updateTaskById` on the decoded form. -/
theorem updateTaskById_overwrites_row (db : DB) (task : Task)
    (he : db.faults.exec = none)
    (hn : (db.todos.map (fun r => r.Id)).Nodup)
    (hm : task.Id ∈ db.todos.map (fun r => r.Id)) :
    (updateTaskById db task).2.todos.filter (fun r => r.Id = task.Id) = [task] ∧
    (updateTaskById db task).2.todos.map (fun r => r.Id) = db.todos.map (fun r => r.Id) ∧
    (updateTaskById db task).2.todos.filter (fun r => ¬ r.Id = task.Id)
      = db.todos.filter (fun r => ¬ r.Id = task.Id) ∧
    (∀ (i : Nat) (r : Task), db.todos[i]? = some r →
      (updateTaskById db task).2.todos[i]? = some (if r.Id = task.Id then task else r)) ∧
    (∀ c : Context,
      (updateTask c db).2 =
        match Atoi (c.Param "id") with
        | none => db
        | some taskId =>
          (updateTaskById db
            ⟨taskId, c.PostForm "task", taskStatus (c.PostForm "done")⟩).2) := by
  have h : (updateTaskById db task).2.todos =
      db.todos.map (fun r => if r.Id = task.Id then
        ({ r with Task := task.Task, Done := task.Done } : Task) else r) := by
    unfold updateTaskById DB.ExecUpdate DB.RowsAffected
    simp only [he]
    cases db.faults.rowsAffected <;> rfl
  rw [h]
  refine ⟨map_update_filter_eq _ _ hn hm, map_update_ids _ _, map_update_filter_ne _ _,
    ?_, fun c => updateTask_db c db⟩
  intro i r hi
  rw [List.getElem?_map, hi]
  by_cases hr : r.Id = task.Id
  · have htask : ({ r with Task := task.Task, Done := task.Done } : Task) = task := by
      cases task; cases r; simp_all
    simp [hr, htask]
  · simp [hr]

/-- Witness of C4: the row with id 2 of a table of three rows is overwritten. -/
theorem updateTaskById_overwrites_row_witness :
    ((⟨[⟨1, "a", false⟩, ⟨2, "b", false⟩, ⟨3, "c", true⟩], {}⟩ : DB).faults.exec = none ∧
      ([(1 : Int), 2, 3]).Nodup ∧ (2 : Int) ∈ [(1 : Int), 2, 3]) ∧
    (updateTaskById ⟨[⟨1, "a", false⟩, ⟨2, "b", false⟩, ⟨3, "c", true⟩], {}⟩
        ⟨2, "buy milk", true⟩).2.todos
      = [⟨1, "a", false⟩, ⟨2, "buy milk", true⟩, ⟨3, "c", true⟩] ∧
    (updateTaskById ⟨[⟨1, "a", false⟩, ⟨2, "b", false⟩, ⟨3, "c", true⟩], {}⟩
        ⟨2, "buy milk", true⟩).2.todos.filter (fun r => r.Id = 2)
      = [⟨2, "buy milk", true⟩] :=
  ⟨⟨rfl, by decide, by decide⟩, by decide,
   (updateTaskById_overwrites_row
      ⟨[⟨1, "a", false⟩, ⟨2, "b", false⟩, ⟨3, "c", true⟩], {}⟩ ⟨2, "buy milk", true⟩
      rfl (by decide) (by decide)).1⟩

/-- What `deleTaskWithID` does when the driver reports no failure. -/
theorem deleTaskWithID_eq (db : DB) (id : Int)
    (hp : db.faults.prepare = none) (he : db.faults.exec = none)
    (hr : db.faults.rowsAffected = none) :
    deleTaskWithID db id =
      (if (db.todos.filter (fun r => r.Id = id)).length = 0 then
          some (.msg ("no task found with id " ++ fmtD id)) else none,
        { db with todos := db.todos.filter (fun r => ¬ r.Id = id) }) := by
  unfold deleTaskWithID DB.Prepare DB.ExecDelete DB.RowsAffected
  simp only [hp, he, hr]
  split <;> rfl

/-- C5: in a table with unique ids, when the driver reports no failure and
the id is in the table, `deleTaskWithID` returns no error; a `getTasks` that
follows returns no task with that id; the table holds no row with that id,
one row fewer than before, and every row with another id, unchanged and in
the same order (also in what `getTasks` returns when reading does not fail);
and `deleteTask` answers 200 with `todoList` bound to that `getTasks`. -/
theorem deleTaskWithID_removes_row (db : DB) (id : Int)
    (hp : db.faults.prepare = none) (he : db.faults.exec = none)
    (hr : db.faults.rowsAffected = none)
    (hn : (db.todos.map (fun r => r.Id)).Nodup)
    (hm : id ∈ db.todos.map (fun r => r.Id)) :
    (deleTaskWithID db id).1 = none ∧
    (∀ t ∈ (getTasks (deleTaskWithID db id).2).1, t.Id ≠ id) ∧
    (∀ t ∈ (deleTaskWithID db id).2.todos, t.Id ≠ id) ∧
    (∀ r ∈ db.todos, r.Id ≠ id → r ∈ (deleTaskWithID db id).2.todos) ∧
    (deleTaskWithID db id).2.todos = db.todos.filter (fun r => ¬ r.Id = id) ∧
    (deleTaskWithID db id).2.todos.length + 1 = db.todos.length ∧
    (db.faults.query = none → db.faults.next = none →
      (∀ r ∈ db.todos, db.faults.scan r = none) →
      (getTasks (deleTaskWithID db id).2).1 = db.todos.filter (fun r => ¬ r.Id = id)) ∧
    (∀ c : Context, Atoi (c.Param "id") = some id →
      deleteTask c db =
        (.responded (.HTML 200 "todoList"
            (.tasks (getTasks (deleTaskWithID db id).2).1)),
          (deleTaskWithID db id).2)) := by
  have hpos := filter_id_eq_length_pos db.todos id hm
  have hone := filter_id_eq_length_one db.todos id hn hm
  have hsplit := length_filter_id_split db.todos id
  have h := deleTaskWithID_eq db id hp he hr
  simp only [hpos, if_false] at h
  have hmem : ∀ t ∈ db.todos.filter (fun r => ¬ r.Id = id), t.Id ≠ id := by
    intro t ht
    simpa using (List.mem_filter.mp ht).2
  refine ⟨by rw [h], ?_, by rw [h]; exact hmem, ?_, by rw [h], by rw [h]; simp only; omega,
    ?_, ?_⟩
  · intro t ht
    have := getTasks_mem _ t ht
    rw [h] at this
    exact hmem t this
  · intro r hr1 hr2
    rw [h]
    exact List.mem_filter.mpr ⟨hr1, by simpa using hr2⟩
  · intro hq hnx hs
    rw [h]
    have hg := getTasks_ok { db with todos := db.todos.filter (fun r => ¬ r.Id = id) } hq hnx
      (fun r hr1 => hs r (List.mem_filter.mp hr1).1)
    rw [hg]
  · intro c hc
    unfold deleteTask
    simp only [hc, h, StatusOK]

/-- Witness of C5: the row with id 2 of a table of three rows is deleted. -/
theorem deleTaskWithID_removes_row_witness :
    ((2 : Int) ∈ [(1 : Int), 2, 3]) ∧
    (deleTaskWithID ⟨[⟨1, "a", false⟩, ⟨2, "b", false⟩, ⟨3, "c", true⟩], {}⟩ 2).1 = none ∧
    (deleTaskWithID ⟨[⟨1, "a", false⟩, ⟨2, "b", false⟩, ⟨3, "c", true⟩], {}⟩ 2).2.todos
      = [⟨1, "a", false⟩, ⟨3, "c", true⟩] ∧
    (getTasks (deleTaskWithID
        ⟨[⟨1, "a", false⟩, ⟨2, "b", false⟩, ⟨3, "c", true⟩], {}⟩ 2).2).1
      = [⟨1, "a", false⟩, ⟨3, "c", true⟩] :=
  ⟨by decide,
   (deleTaskWithID_removes_row
      ⟨[⟨1, "a", false⟩, ⟨2, "b", false⟩, ⟨3, "c", true⟩], {}⟩ 2
      rfl rfl rfl (by decide) (by decide)).1,
   by decide, by decide⟩

/-- C6: when the driver reports no failure and the id matches no row,
`deleTaskWithID` returns the error with text `no task found with id <id>`
and the database after the call is the database before it. -/
theorem deleTaskWithID_not_found (db : DB) (id : Int)
    (hp : db.faults.prepare = none) (he : db.faults.exec = none)
    (hr : db.faults.rowsAffected = none)
    (hm : id ∉ db.todos.map (fun r => r.Id)) :
    (deleTaskWithID db id).1 = some (.msg ("no task found with id " ++ fmtD id)) ∧
    (deleTaskWithID db id).2 = db ∧
    (deleTaskWithID db id).2.todos = db.todos := by
  have h := deleTaskWithID_eq db id hp he hr
  rw [filter_id_eq_nil db.todos id hm, filter_id_ne_self db.todos id hm] at h
  rw [h]
  exact ⟨rfl, rfl, rfl⟩

/-- Witness of C6: id 7 in a table with ids 1 and 2. -/
theorem deleTaskWithID_not_found_witness :
    ((7 : Int) ∉ [(1 : Int), 2]) ∧
    (deleTaskWithID ⟨[⟨1, "a", false⟩, ⟨2, "b", true⟩], {}⟩ 7).1
      = some (.msg "no task found with id 7") ∧
    (deleTaskWithID ⟨[⟨1, "a", false⟩, ⟨2, "b", true⟩], {}⟩ 7).2.todos
      = [⟨1, "a", false⟩, ⟨2, "b", true⟩] :=
  ⟨by decide,
   (deleTaskWithID_not_found ⟨[⟨1, "a", false⟩, ⟨2, "b", true⟩], {}⟩ 7
      rfl rfl rfl (by decide)).1,
   (deleTaskWithID_not_found ⟨[⟨1, "a", false⟩, ⟨2, "b", true⟩], {}⟩ 7
      rfl rfl rfl (by decide)).2.2⟩

/-- C7: when the `UPDATE` executes and affects zero rows (the id matches no
row, the driver reports no failure), `updateTaskById` returns no error and
the database is as before; `updateTask` then answers 200 with the template
`todoList` bound to what `getTasks` returns, and does not halt. -/
theorem updateTaskById_no_match_succeeds (c : Context) (db : DB) (id : Int)
    (hparse : Atoi (c.Param "id") = some id)
    (he : db.faults.exec = none) (hr : db.faults.rowsAffected = none)
    (hm : id ∉ db.todos.map (fun r => r.Id)) :
    (db.todos.filter (fun r => r.Id = id)).length = 0 ∧
    (∀ task : Task, task.Id = id → updateTaskById db task = (none, db)) ∧
    updateTask c db
      = (.responded (.HTML 200 "todoList" (.tasks (getTasks db).1)), db) ∧
    (db.faults.query = none → db.faults.next = none →
      (∀ r ∈ db.todos, db.faults.scan r = none) →
      updateTask c db = (.responded (.HTML 200 "todoList" (.tasks db.todos)), db)) := by
  have hu : ∀ task : Task, task.Id = id → updateTaskById db task = (none, db) := by
    intro task ht
    subst ht
    unfold updateTaskById DB.ExecUpdate DB.RowsAffected
    simp only [he, hr]
    rw [map_update_of_not_mem db.todos task hm]
  have hh : updateTask c db
      = (.responded (.HTML 200 "todoList" (.tasks (getTasks db).1)), db) := by
    unfold updateTask
    simp only [hparse, hu ⟨id, c.PostForm "task", taskStatus (c.PostForm "done")⟩ rfl,
      StatusOK]
  refine ⟨by rw [filter_id_eq_nil db.todos id hm]; rfl, hu, hh, ?_⟩
  intro hq hn hs
  rw [hh, getTasks_ok db hq hn hs]

/-- Witness of C7: an update for id 9 on a table with ids 1 and 2. -/
theorem updateTaskById_no_match_succeeds_witness :
    Atoi (Context.Param ⟨[("id", "9")], [("task", "x"), ("done", "on")]⟩ "id") = some 9 ∧
    ((9 : Int) ∉ [(1 : Int), 2]) ∧
    updateTask ⟨[("id", "9")], [("task", "x"), ("done", "on")]⟩
        ⟨[⟨1, "a", false⟩, ⟨2, "b", true⟩], {}⟩
      = (.responded (.HTML 200 "todoList" (.tasks [⟨1, "a", false⟩, ⟨2, "b", true⟩])),
         ⟨[⟨1, "a", false⟩, ⟨2, "b", true⟩], {}⟩) :=
  ⟨by decide, by decide,
   (updateTaskById_no_match_succeeds ⟨[("id", "9")], [("task", "x"), ("done", "on")]⟩
      ⟨[⟨1, "a", false⟩, ⟨2, "b", true⟩], {}⟩ 9 (by decide) rfl rfl (by decide)).2.2.2
      rfl rfl (fun _ _ => rfl)⟩

/-- C8: what `getTasks` does when scanning a row fails: the query has
succeeded, a delivered row does not scan, and `getTasks` returns the nil
slice with a nil error (it returns `err`, which is nil there, not `rowErr`). -/
theorem getTasks_scan_failure_nil_error (db : DB) (rows : Rows)
    (hq : db.Query (fun _ => true) = .ok rows)
    (hs : ∃ r ∈ rows.pending, db.faults.scan r ≠ none) :
    getTasks db = ([], none) := by
  obtain ⟨e, he⟩ := scanLoop_error db rows.pending [] hs
  simp [getTasks, hq, he]

/-- Witness of C8: a table of two rows, the second of which does not scan. -/
theorem getTasks_scan_failure_nil_error_witness :
    (DB.Query ⟨[⟨1, "a", false⟩, ⟨2, "b", true⟩],
        { scan := fun r => if r.Id = 2 then some (.msg "converting NULL to bool") else none }⟩
      (fun _ => true) = .ok ⟨[⟨1, "a", false⟩, ⟨2, "b", true⟩], none⟩) ∧
    getTasks ⟨[⟨1, "a", false⟩, ⟨2, "b", true⟩],
        { scan := fun r => if r.Id = 2 then some (.msg "converting NULL to bool") else none }⟩
      = ([], none) :=
  ⟨rfl, getTasks_scan_failure_nil_error _ ⟨[⟨1, "a", false⟩, ⟨2, "b", true⟩], none⟩ rfl
    ⟨⟨2, "b", true⟩, by simp, by simp⟩⟩

/-- C9: for an id parameter that converts to the integer `id`: whatever
error `getTaskByID` returns, `getTaskUpdateForm` writes status 500 with the
text of that error, renders no template, leaves the database as it was and
does not halt; whatever error `deleTaskWithID` returns, `deleteTask` does the
same; and when `id` matches no row and the driver reports no failure, the
texts are `no task was found with task <id>` and `no task found with id <id>`. -/
theorem not_found_internal_server_error (c : Context) (db : DB) (id : Int)
    (hparse : Atoi (c.Param "id") = some id) :
    (∀ err : GoError, getTaskByID db id = .error err →
      getTaskUpdateForm c db = (.responded (.String 500 err.Error), db)) ∧
    (∀ err : GoError, (deleTaskWithID db id).1 = some err →
      deleteTask c db = (.responded (.String 500 err.Error), (deleTaskWithID db id).2)) ∧
    (id ∉ db.todos.map (fun r => r.Id) → db.faults.query = none → db.faults.next = none →
      getTaskByID db id = .error (.msg ("no task was found with task " ++ fmtD id)) ∧
      getTaskUpdateForm c db
        = (.responded (.String 500 ("no task was found with task " ++ fmtD id)), db)) ∧
    (id ∉ db.todos.map (fun r => r.Id) → db.faults.prepare = none →
      db.faults.exec = none → db.faults.rowsAffected = none →
      deleTaskWithID db id = (some (.msg ("no task found with id " ++ fmtD id)), db) ∧
      deleteTask c db
        = (.responded (.String 500 ("no task found with id " ++ fmtD id)), db)) := by
  have hget : ∀ err : GoError, getTaskByID db id = .error err →
      getTaskUpdateForm c db = (.responded (.String 500 err.Error), db) := by
    intro err h
    unfold getTaskUpdateForm
    simp only [hparse, h, StatusInternalServerError]
  have hdel : ∀ err : GoError, (deleTaskWithID db id).1 = some err →
      deleteTask c db
        = (.responded (.String 500 err.Error), (deleTaskWithID db id).2) := by
    intro err h
    unfold deleteTask
    simp only [hparse]
    generalize deleTaskWithID db id = r at h
    obtain ⟨e, db1⟩ := r
    simp only at h
    subst h
    rfl
  refine ⟨hget, hdel, ?_, ?_⟩
  · intro hm hq hn
    have hg : getTaskByID db id
        = .error (.msg ("no task was found with task " ++ fmtD id)) := by
      unfold getTaskByID DB.RowScan DB.Query
      simp only [hq, hn, filter_id_eq_nil db.todos id hm]
      rfl
    exact ⟨hg, hget _ hg⟩
  · intro hm hp he hr
    have h6 := deleTaskWithID_eq db id hp he hr
    rw [filter_id_eq_nil db.todos id hm, filter_id_ne_self db.todos id hm] at h6
    have hd : deleTaskWithID db id
        = (some (.msg ("no task found with id " ++ fmtD id)), db) := by
      rw [h6]; rfl
    refine ⟨hd, ?_⟩
    have := hdel (.msg ("no task found with id " ++ fmtD id)) (by rw [hd])
    rw [this, hd]
    rfl

/-- Witness of C9: id 7 in a table with ids 1 and 2. -/
theorem not_found_internal_server_error_witness :
    Atoi (Context.Param ⟨[("id", "7")], []⟩ "id") = some 7 ∧
    getTaskUpdateForm ⟨[("id", "7")], []⟩ ⟨[⟨1, "a", false⟩, ⟨2, "b", true⟩], {}⟩
      = (.responded (.String 500 "no task was found with task 7"),
         ⟨[⟨1, "a", false⟩, ⟨2, "b", true⟩], {}⟩) ∧
    deleteTask ⟨[("id", "7")], []⟩ ⟨[⟨1, "a", false⟩, ⟨2, "b", true⟩], {}⟩
      = (.responded (.String 500 "no task found with id 7"),
         ⟨[⟨1, "a", false⟩, ⟨2, "b", true⟩], {}⟩) :=
  ⟨by decide,
   ((not_found_internal_server_error ⟨[("id", "7")], []⟩
      ⟨[⟨1, "a", false⟩, ⟨2, "b", true⟩], {}⟩ 7 (by decide)).2.2.1
      (by decide) rfl rfl).2,
   ((not_found_internal_server_error ⟨[("id", "7")], []⟩
      ⟨[⟨1, "a", false⟩, ⟨2, "b", true⟩], {}⟩ 7 (by decide)).2.2.2
      (by decide) rfl rfl rfl).2⟩

/-- C10: what `fetchTasks` does when `getTasks` returns an error: `log.Fatal`
halts the process with that error, no response is written. -/
theorem fetchTasks_halts_on_error (db : DB) (err : GoError)
    (h : (getTasks db).2 = some err) : fetchTasks db = (.halted err, db) := by
  unfold fetchTasks
  generalize getTasks db = r at h
  obtain ⟨ts, e⟩ := r
  simp at h
  subst h
  rfl

/-- Witness of C10: the query fails with `database is locked`. -/
theorem fetchTasks_halts_on_error_witness :
    (getTasks ⟨[⟨1, "a", false⟩], { query := some (.msg "database is locked") }⟩).2
      = some (.msg "database is locked") ∧
    fetchTasks ⟨[⟨1, "a", false⟩], { query := some (.msg "database is locked") }⟩
      = (.halted (.msg "database is locked"),
         ⟨[⟨1, "a", false⟩], { query := some (.msg "database is locked") }⟩) :=
  ⟨rfl, fetchTasks_halts_on_error _ _ rfl⟩

end GoHtmxLearn
